import Mathlib

/-
  Verification of the crownstone uart core: the frame dispatcher
  (UartParser.py) and the connection supervisor (UartManager.py).

  The embedding below translates the Python source into pure Lean
  functions.  Effects are made explicit:
    - bus emissions become a list of BusEvent values,
    - log calls become a list of tag strings,
    - console prints become a list of strings,
    - Python exceptions become an Option Exc channel.
  External collaborators that are not part of the excerpted source
  (opcode constants, packet decoders, the transport bridge, port
  enumeration) are modelled from the spec, each marked as such.
-/

namespace CrownstoneUart

/-- Exceptions that can cross the dispatch boundary.  The repository
distinguishes CrownstoneException (domain decode failures, raised by
collaborator decoders or by subscriber logic) from every other Python
exception type. -/
inductive Exc where
  | crownstone (msg : String)
  | other (msg : String)
deriving DecidableEq, Repr

/- Modelled from the spec: the protocol constants of UartTypes.py are
not in the excerpt.  The spec fixes only their structure: about 45
distinct opcode values, a contiguous error-reply range with four named
codes guarded by 9900 < opCode < 10000, and all non-error opcodes
outside that range.  Concrete values below satisfy exactly that. -/
namespace UartRxType

def HELLO : Nat := 0
def SESSION_NONCE : Nat := 1
def HEARTBEAT : Nat := 2
def STATUS : Nat := 3
def RESULT_PACKET : Nat := 10
def ERR_REPLY_PARSING_FAILED : Nat := 9901
def ERR_REPLY_STATUS : Nat := 9902
def ERR_REPLY_SESSION_NONCE_MISSING : Nat := 9903
def ERR_REPLY_DECRYPTION_FAILED : Nat := 9904
def UART_MESSAGE : Nat := 10000
def SESSION_NONCE_MISSING : Nat := 10001
def OWN_SERVICE_DATA : Nat := 10002
def PRESENCE_CHANGE : Nat := 10003
def FACTORY_RESET : Nat := 10004
def BOOTED : Nat := 10005
def HUB_DATA : Nat := 10006
def MESH_SERVICE_DATA : Nat := 10007
def EXTERNAL_STATE_PART_0 : Nat := 10008
def EXTERNAL_STATE_PART_1 : Nat := 10009
def MESH_RESULT : Nat := 10010
def MESH_ACK_ALL_RESULT : Nat := 10011
def RSSI_PING_MESSAGE : Nat := 10012
def LOG : Nat := 10013
def LOG_ARRAY : Nat := 10014
def ASSET_MAC_RSSI_REPORT : Nat := 10015
def ASSET_ID_RSSI_REPORT : Nat := 10016
def INTERNAL_EVENT : Nat := 10017
def MESH_CMD_TIME : Nat := 10018
def MESH_PROFILE_LOCATION : Nat := 10019
def MESH_SET_BEHAVIOUR_SETTINGS : Nat := 10020
def MESH_TRACKED_DEVICE_REGISTER : Nat := 10021
def MESH_TRACKED_DEVICE_TOKEN : Nat := 10022
def MESH_SYNC_REQUEST : Nat := 10023
def MESH_TRACKED_DEVICE_HEARTBEAT : Nat := 10024
def ADVERTISING_ENABLED : Nat := 10025
def MESH_ENABLED : Nat := 10026
def CROWNSTONE_ID : Nat := 10027
def MAC_ADDRESS : Nat := 10028
def ADC_CONFIG : Nat := 10029
def ADC_RESTART : Nat := 10030
def POWER_LOG_CURRENT : Nat := 10031
def POWER_LOG_VOLTAGE : Nat := 10032
def POWER_LOG_FILTERED_CURRENT : Nat := 10033
def POWER_LOG_FILTERED_VOLTAGE : Nat := 10034
def POWER_LOG_POWER : Nat := 10035
def ASCII_LOG : Nat := 10036
def FIRMWARESTATE : Nat := 10037

end UartRxType

/- Modelled from the spec: UartMessageType values of UartTypes.py are
not in the excerpt; the spec gives the enum PlainMessage versus
EncryptedMessage, to which the source adds an unknown fallback. -/
namespace UartMessageType

def UART_MESSAGE : Nat := 0
def ENCRYPTED_UART_MESSAGE : Nat := 1

end UartMessageType

/-- Modelled from the spec: the single supported protocol major version
of UartWrapperPacket.py, which is not in the excerpt. -/
def PROTOCOL_MAJOR : Nat := 1

/-- The wrapper frame as produced by the transport, data model of the
spec: protocol version, message type tag and raw payload bytes. -/
structure UartWrapperPacket where
  protocolMajor : Nat
  protocolMinor : Nat
  messageType : Nat
  payload : List Nat
deriving DecidableEq, Repr

/-- The inner message: a u16 opcode tag plus raw payload bytes. -/
structure UartMessagePacket where
  opCode : Nat
  payload : List Nat
deriving DecidableEq, Repr

/-- Modelled from the spec: UartMessagePacket.parse is not in the
excerpt.  The spec says the wrapper payload decodes into an opcode-tagged
message and that a malformed inner structure makes decoding fail.  We
read a little-endian u16 opcode followed by the payload tail; payloads
shorter than the opcode field fail to decode. -/
def parseUartMessagePacket (payload : List Nat) : Option UartMessagePacket :=
  match payload with
  | b0 :: b1 :: rest => some { opCode := b0 + 256 * b1, payload := rest }
  | _ => none

/-- Every bus emission the dispatcher can produce.  One constructor per
topic of the topic table of the spec; the constructor identifies the
topic, its arguments the payload handed to subscribers. -/
inductive BusEvent where
  | uartNewMessage (msg : UartMessagePacket)
  | hello (payload : List Nat)
  | resultPacket (payload : List Nat)
  | meshResult (crownstoneId : Nat) (payload : List Nat)
  | meshResultFinal (payload : List Nat)
  | stateUpdate (crownstoneId : Nat)
  | uartMessage (text : String) (payload : List Nat)
  | newServiceData (payload : List Nat)
  | log (payload : List Nat)
  | logArray (payload : List Nat)
  | assetTrackingReport (payload : List Nat)
  | assetIdReport (payload : List Nat)
  | ownCrownstoneId (id : Nat)
  | ownMacAddress (addr : String)
  | newAdcConfig (payload : List Nat)
  | adcRestarted
  | newCurrentData (payload : List Nat)
  | newVoltageData (payload : List Nat)
  | newFilteredCurrentData (payload : List Nat)
  | newFilteredVoltageData (payload : List Nat)
  | newCalculatedPowerData (payload : List Nat)
deriving DecidableEq, Repr

/-- Observable outcome of one dispatcher call: bus events emitted in
order, log lines, console prints, and an exception escaping the call
when exc is not none. -/
structure DispatchResult where
  events : List BusEvent := []
  logs : List String := []
  prints : List String := []
  exc : Option Exc := none
deriving DecidableEq, Repr

/-- Environment of the dispatcher.  handler is the combined effect of
every other bus subscriber on an emitted event (none means all handlers
returned normally, otherwise the exception that escaped emit, which the
bus of this repository propagates to the emitter, as the source comment
at the dispatch call site records).  decodeExc models the collaborator
packet constructors: keyed by opcode and by the bytes handed to the
constructor, some e means construction raised e, none means it produced
the wrapped value.  opcode7Id models parseOpcode7 of crownstone_core:
the crownstoneId attribute of the parse result when present. -/
structure ParserEnv where
  handler : BusEvent → Option Exc
  decodeExc : Nat → List Nat → Option Exc
  opcode7Id : List Nat → Option Nat

/-- Emit one event on the bus: the event is recorded, then delivered
synchronously to the subscribers, whose failure escapes to the
emitter. -/
def emitB (env : ParserEnv) (e : BusEvent) : DispatchResult :=
  { events := [e], exc := env.handler e }

/-- Run a collaborator packet constructor and emit on success, with the
given log lines either way; a constructor failure escapes before any
emission. -/
def decodeEmitL (env : ParserEnv) (op : Nat) (bytes : List Nat)
    (lgs : List String) (e : BusEvent) : DispatchResult :=
  match env.decodeExc op bytes with
  | some ex => { logs := lgs, exc := some ex }
  | none => { events := [e], logs := lgs, exc := env.handler e }

/-- Run a collaborator packet constructor and emit on success. -/
def decodeEmit (env : ParserEnv) (op : Nat) (bytes : List Nat)
    (e : BusEvent) : DispatchResult :=
  decodeEmitL env op bytes [] e

/-- Modelled from the spec: Conversion.int8_to_uint8 of crownstone_core
is an external decoder treated as a pure function; the spec scenario
fixes payload [0x07] to decode to the integer 7.  We read the first
payload byte as an unsigned 8 bit value. -/
def int8_to_uint8 (payload : List Nat) : Nat :=
  payload.headD 0 % 256

/-- Modelled from the spec: Conversion.uint8_array_to_address of
crownstone_core is an external decoder; per the spec an empty or
all-zero (invalid) payload yields the empty string, any other payload a
non-empty textual address. -/
def uint8_array_to_address (payload : List Nat) : String :=
  if payload.length = 0 ∨ payload.all (fun b => b == 0) then ""
  else String.intercalate ":" (payload.map (fun b => toString b))

/-- The opcode switch of UartParser._handleUartMessage: one linear
conditional chain on opCode, first match wins, translated branch by
branch from the source.  Branches that only log at debug level produce a
log line and nothing else; plain pass branches produce nothing. -/
def _handleUartMessage (env : ParserEnv) (msg : UartMessagePacket) : DispatchResult :=
  if msg.opCode = UartRxType.HELLO then
    decodeEmit env msg.opCode msg.payload (BusEvent.hello msg.payload)
  else if msg.opCode = UartRxType.SESSION_NONCE then
    { logs := ["DEBUG received SESSION_NONCE"] }
  else if msg.opCode = UartRxType.HEARTBEAT then
    { logs := ["DEBUG received HEARTBEAT"] }
  else if msg.opCode = UartRxType.STATUS then
    { logs := ["DEBUG received STATUS"] }
  else if msg.opCode = UartRxType.RESULT_PACKET then
    decodeEmit env msg.opCode msg.payload (BusEvent.resultPacket msg.payload)
  else if msg.opCode = UartRxType.ERR_REPLY_PARSING_FAILED then
    { logs := ["DEBUG received ERR_REPLY_PARSING_FAILED"] }
  else if msg.opCode = UartRxType.ERR_REPLY_STATUS then
    { logs := ["DEBUG received ERR_REPLY_STATUS"] }
  else if msg.opCode = UartRxType.ERR_REPLY_SESSION_NONCE_MISSING then
    { logs := ["DEBUG received ERR_REPLY_SESSION_NONCE_MISSING"] }
  else if msg.opCode = UartRxType.ERR_REPLY_DECRYPTION_FAILED then
    { logs := ["DEBUG received ERR_REPLY_DECRYPTION_FAILED"] }
  else if 9900 < msg.opCode ∧ msg.opCode < 10000 then
    { logs := ["DEBUG received ERR_REPLY"] }
  else if msg.opCode = UartRxType.UART_MESSAGE then
    emitB env (BusEvent.uartMessage
      (String.mk (msg.payload.map Char.ofNat)) msg.payload)
  else if msg.opCode = UartRxType.SESSION_NONCE_MISSING then
    { logs := ["DEBUG received SESSION_NONCE_MISSING"] }
  else if msg.opCode = UartRxType.OWN_SERVICE_DATA then
    decodeEmit env msg.opCode msg.payload (BusEvent.newServiceData msg.payload)
  else if msg.opCode = UartRxType.PRESENCE_CHANGE then
    {}
  else if msg.opCode = UartRxType.FACTORY_RESET then
    {}
  else if msg.opCode = UartRxType.BOOTED then
    { logs := ["DEBUG received BOOTED"] }
  else if msg.opCode = UartRxType.HUB_DATA then
    {}
  else if msg.opCode = UartRxType.MESH_SERVICE_DATA then
    match env.decodeExc msg.opCode msg.payload with
    | some ex => { exc := some ex }
    | none =>
      match env.opcode7Id msg.payload with
      | some cid =>
        { events := [BusEvent.stateUpdate cid],
          logs := ["DEBUG received service data"],
          exc := env.handler (BusEvent.stateUpdate cid) }
      | none => { logs := ["DEBUG received service data"] }
  else if msg.opCode = UartRxType.EXTERNAL_STATE_PART_0 then
    {}
  else if msg.opCode = UartRxType.EXTERNAL_STATE_PART_1 then
    {}
  else if msg.opCode = UartRxType.MESH_RESULT then
    if msg.payload.length > 1 then
      decodeEmit env msg.opCode (msg.payload.drop 1)
        (BusEvent.meshResult (msg.payload.headD 0) (msg.payload.drop 1))
    else
      {}
  else if msg.opCode = UartRxType.MESH_ACK_ALL_RESULT then
    decodeEmit env msg.opCode msg.payload (BusEvent.meshResultFinal msg.payload)
  else if msg.opCode = UartRxType.RSSI_PING_MESSAGE then
    {}
  else if msg.opCode = UartRxType.LOG then
    decodeEmitL env msg.opCode msg.payload ["DEBUG received binary log"]
      (BusEvent.log msg.payload)
  else if msg.opCode = UartRxType.LOG_ARRAY then
    decodeEmitL env msg.opCode msg.payload ["DEBUG received binary log array"]
      (BusEvent.logArray msg.payload)
  else if msg.opCode = UartRxType.ASSET_MAC_RSSI_REPORT then
    decodeEmitL env msg.opCode msg.payload ["DEBUG received ASSET_MAC_RSSI_REPORT"]
      (BusEvent.assetTrackingReport msg.payload)
  else if msg.opCode = UartRxType.ASSET_ID_RSSI_REPORT then
    decodeEmitL env msg.opCode msg.payload ["DEBUG received ASSET_ID_RSSI_REPORT"]
      (BusEvent.assetIdReport msg.payload)
  else if msg.opCode = UartRxType.INTERNAL_EVENT then
    {}
  else if msg.opCode = UartRxType.MESH_CMD_TIME then
    {}
  else if msg.opCode = UartRxType.MESH_PROFILE_LOCATION then
    {}
  else if msg.opCode = UartRxType.MESH_SET_BEHAVIOUR_SETTINGS then
    {}
  else if msg.opCode = UartRxType.MESH_TRACKED_DEVICE_REGISTER then
    {}
  else if msg.opCode = UartRxType.MESH_TRACKED_DEVICE_TOKEN then
    {}
  else if msg.opCode = UartRxType.MESH_SYNC_REQUEST then
    {}
  else if msg.opCode = UartRxType.MESH_TRACKED_DEVICE_HEARTBEAT then
    {}
  else if msg.opCode = UartRxType.ADVERTISING_ENABLED then
    {}
  else if msg.opCode = UartRxType.MESH_ENABLED then
    {}
  else if msg.opCode = UartRxType.CROWNSTONE_ID then
    emitB env (BusEvent.ownCrownstoneId (int8_to_uint8 msg.payload))
  else if msg.opCode = UartRxType.MAC_ADDRESS then
    if uint8_array_to_address msg.payload ≠ "" then
      emitB env (BusEvent.ownMacAddress (uint8_array_to_address msg.payload))
    else
      { logs := ["WARN invalid address"] }
  else if msg.opCode = UartRxType.ADC_CONFIG then
    decodeEmit env msg.opCode msg.payload (BusEvent.newAdcConfig msg.payload)
  else if msg.opCode = UartRxType.ADC_RESTART then
    emitB env BusEvent.adcRestarted
  else if msg.opCode = UartRxType.POWER_LOG_CURRENT then
    decodeEmit env msg.opCode msg.payload (BusEvent.newCurrentData msg.payload)
  else if msg.opCode = UartRxType.POWER_LOG_VOLTAGE then
    decodeEmit env msg.opCode msg.payload (BusEvent.newVoltageData msg.payload)
  else if msg.opCode = UartRxType.POWER_LOG_FILTERED_CURRENT then
    decodeEmit env msg.opCode msg.payload (BusEvent.newFilteredCurrentData msg.payload)
  else if msg.opCode = UartRxType.POWER_LOG_FILTERED_VOLTAGE then
    decodeEmit env msg.opCode msg.payload (BusEvent.newFilteredVoltageData msg.payload)
  else if msg.opCode = UartRxType.POWER_LOG_POWER then
    decodeEmit env msg.opCode msg.payload (BusEvent.newCalculatedPowerData msg.payload)
  else if msg.opCode = UartRxType.ASCII_LOG then
    { prints := [String.mk ((msg.payload.filter (fun b => b < 128)).map Char.ofNat)] }
  else if msg.opCode = UartRxType.FIRMWARESTATE then
    {}
  else
    { logs := ["DEBUG unknown opCode"] }

/-- The catch at the dispatch call site, UartParser.handleUartMessage:
a CrownstoneException is swallowed and logged as a parse error; any
other escaping exception is left untouched. -/
def parseErrorLog : Option Exc → List String
  | some (Exc.crownstone _) => ["ERROR parse error"]
  | _ => []

/-- Exception transformation of the catch at the dispatch call site:
CrownstoneException is absorbed, everything else passes through. -/
def squashCrownstone : Option Exc → Option Exc
  | some (Exc.crownstone _) => none
  | e => e

/-- UartParser.handleUartMessage: run the opcode switch inside the
single try block that catches CrownstoneException only. -/
def handleUartMessage (env : ParserEnv) (msg : UartMessagePacket) : DispatchResult :=
  { events := (_handleUartMessage env msg).events,
    prints := (_handleUartMessage env msg).prints,
    logs := (_handleUartMessage env msg).logs
              ++ parseErrorLog (_handleUartMessage env msg).exc,
    exc := squashCrownstone (_handleUartMessage env msg).exc }

/-- UartParser.parse: frame validation and unwrap.  The protocol major
version is checked first, then the message type; a plain message is
decoded and emitted on the new-message topic, whose synchronous
subscribers are the dispatcher itself (handleUartMessage, subscribed in
the constructor) followed by the remaining bus subscribers modelled by
env.handler. -/
def parse (env : ParserEnv) (w : UartWrapperPacket) : DispatchResult :=
  if w.protocolMajor ≠ PROTOCOL_MAJOR then
    { logs := ["WARN unknown protocol"] }
  else if w.messageType = UartMessageType.UART_MESSAGE then
    match parseUartMessagePacket w.payload with
    | none => {}
    | some msg =>
      match (handleUartMessage env msg).exc with
      | some ex =>
        { events := BusEvent.uartNewMessage msg :: (handleUartMessage env msg).events,
          logs := (handleUartMessage env msg).logs,
          prints := (handleUartMessage env msg).prints,
          exc := some ex }
      | none =>
        { events := BusEvent.uartNewMessage msg :: (handleUartMessage env msg).events,
          logs := (handleUartMessage env msg).logs,
          prints := (handleUartMessage env msg).prints,
          exc := env.handler (BusEvent.uartNewMessage msg) }
  else if w.messageType = UartMessageType.ENCRYPTED_UART_MESSAGE then
    { logs := ["INFO received encrypted msg, decryption not implemented"] }
  else
    { logs := ["WARN unknown message type"] }

/-- Modelled from the spec: the environment of the connection
supervisor.  comports models list_ports.comports keyed by how many
enumerations happened so far (re-querying may return a different set);
handshake models the transport handshake of UartBridge, which per the
transport contract of the spec suspends and returns success or failure
for a given port, never an exception. -/
structure Env where
  comports : Nat → List String
  handshake : String → Bool

/-- The mutable fields of UartManager, plus ghost counters that record
observable activity: how many backoff sleeps ran, how many full resets
ran, how many handshakes completed successfully, and how many port
enumerations happened. -/
structure MState where
  port : Option String
  baudRate : Nat
  running : Bool
  availablePorts : List String
  attemptingIndex : Nat
  uartBridge : Option String
  ready : Bool
  enumCount : Nat
  sleeps : Nat
  resetCount : Nat
  successfulHandshakes : Nat
deriving DecidableEq, Repr

/-- The reentrant entry points of UartManager.  initMain models
the initialize method of UartManager; initCheckPort models the tail after the
explicit-port block (the check whether self.port is still None). -/
inductive Call where
  | initMain (targetPort : Option String) (baudrate : Nat)
  | initCheckPort
  | reset
  | attemptConnection (index : Nat) (handshake : Bool)
  | setupConnection (port : String) (handshake : Bool)
deriving DecidableEq, Repr

/-- The pure part of UartManager.reset before it recurses: cursor back
to zero, fresh enumeration, bridge and port cleared. -/
def resetState (env : Env) (s : MState) : MState :=
  { s with attemptingIndex := 0,
           availablePorts := env.comports s.enumCount,
           enumCount := s.enumCount + 1,
           uartBridge := none,
           port := none,
           resetCount := s.resetCount + 1 }

/-- One cooperative execution of the UartManager entry points,
translated line by line from the source.  The supervisor retries by
recursing into its own entry point, so the recursion is fuel indexed:
none means the run did not complete within the given fuel (the source
loops unboundedly while the device stays absent). -/
def run (env : Env) : Nat → Call → MState → Option MState
  | 0, _, _ => none
  | fuel + 1, c, s =>
    match c with
    | Call.initMain targetPort baudrate =>
      let s1 := { s with baudRate := baudrate, ready := false }
      match targetPort with
      | some port =>
        match s1.availablePorts.findIdx? (fun d => d == port) with
        | none => run env fuel (Call.setupConnection port true) s1
        | some idx =>
          match run env fuel (Call.attemptConnection idx false)
                  { s1 with attemptingIndex := idx } with
          | none => none
          | some s2 => run env fuel Call.initCheckPort s2
      | none => run env fuel Call.initCheckPort s1
    | Call.initCheckPort =>
      match s.port with
      | some _ => some s
      | none =>
        if s.availablePorts.length ≤ s.attemptingIndex then
          run env fuel Call.reset { s with sleeps := s.sleeps + 1 }
        else
          run env fuel (Call.attemptConnection s.attemptingIndex true) s
    | Call.reset =>
      run env fuel (Call.initMain none 230400) (resetState env s)
    | Call.attemptConnection idx hs =>
      match s.availablePorts[idx]? with
      | none => none
      | some p => run env fuel (Call.setupConnection p hs) s
    | Call.setupConnection port hs =>
      let s1 := { s with uartBridge := some port }
      if (if hs then env.handshake port else true) then
        some ({ s1 with
                port := some port
                ready := true
                successfulHandshakes :=
                  s1.successfulHandshakes + (if hs then 1 else 0) })
      else
        run env fuel (Call.initMain none 230400)
          { s1 with attemptingIndex := s1.attemptingIndex + 1, ready := false }

/-- The state produced by UartManager.__init__: one enumeration has
happened, the cursor is zero, nothing is connected. -/
def mkInitState (env : Env) : MState :=
  { port := none, baudRate := 230400, running := true,
    availablePorts := env.comports 0, attemptingIndex := 0,
    uartBridge := none, ready := false, enumCount := 1,
    sleeps := 0, resetCount := 0, successfulHandshakes := 0 }

/-- UartManager.stop: flip the running flag (the synchronous bridge
teardown has no effect on the modelled fields). -/
def stop (s : MState) : MState :=
  { s with running := false }

/-- UartManager.trackConnection, the liveness-watch continuation: runs
when isAlive resolves, and triggers reset only when the running flag is
still set. -/
def trackConnection (env : Env) (fuel : Nat) (s : MState) : Option MState :=
  if s.running then run env fuel Call.reset s else some s

/-- Calls on which ready is only reachable through a successful
handshake: entry without a target port, entry with a target port that is
not among the enumerated candidates, and the internal continuations
those reach, which all request a handshake. -/
def goodCall : Call → MState → Prop
  | Call.initMain none _, _ => True
  | Call.initMain (some p) _, s => s.availablePorts.findIdx? (fun d => d == p) = none
  | Call.initCheckPort, _ => True
  | Call.reset, _ => True
  | Call.attemptConnection _ hs, _ => hs = true
  | Call.setupConnection _ hs, _ => hs = true

/-- A benign parser environment: every subscriber returns normally and
every collaborator decoder succeeds. -/
def pEnvBenign : ParserEnv :=
  { handler := fun _ => none,
    decodeExc := fun _ _ => none,
    opcode7Id := fun _ => none }

/-- A parser environment in which a subscriber of the hello topic fails
with an exception that is not a CrownstoneException. -/
def pEnvOtherBoom : ParserEnv :=
  { handler := fun e =>
      match e with
      | BusEvent.hello _ => some (Exc.other "boom")
      | _ => none,
    decodeExc := fun _ _ => none,
    opcode7Id := fun _ => none }

/-- A supervisor environment with one enumerable port on which the
handshake would fail. -/
def envOnePortNack : Env :=
  { comports := fun _ => ["ttyACM0"], handshake := fun _ => false }

/-- A supervisor environment with one enumerable port on which the
handshake succeeds. -/
def envOnePortAck : Env :=
  { comports := fun _ => ["ttyACM0"], handshake := fun _ => true }

/-- A supervisor environment with three enumerable ports, only the third
of which completes the handshake. -/
def envThreePorts : Env :=
  { comports := fun _ => ["p0", "p1", "p2"], handshake := fun p => p == "p2" }

/-- A supervisor environment with no enumerable ports at all. -/
def envNoPorts : Env :=
  { comports := fun _ => [], handshake := fun _ => false }

/-- The state in which a run over envOnePortAck with a successful
handshake terminates. -/
def readyOnePortState : MState :=
  { port := some "ttyACM0", baudRate := 230400, running := true,
    availablePorts := ["ttyACM0"], attemptingIndex := 0,
    uartBridge := some "ttyACM0", ready := true, enumCount := 1,
    sleeps := 0, resetCount := 0, successfulHandshakes := 1 }

/-- The state with which the exhausted-candidates path of the entry
point re-enters it: entry-point bookkeeping (baud rate taken over, ready
cleared), one recorded backoff sleep, then the reset. -/
def c7next (env : Env) (b : Nat) (s : MState) : MState :=
  resetState env { s with baudRate := b, ready := false, sleeps := s.sleeps + 1 }

/-- C3: every wrapper frame whose protocolMajor differs from the single
supported major version is dropped by parse before a message is
constructed: no new-message event, no downstream event, and no
exception reaches the caller. -/
theorem parse_drops_unsupported_protocol (env : ParserEnv) (w : UartWrapperPacket)
    (h : w.protocolMajor ≠ PROTOCOL_MAJOR) :
    (parse env w).events = [] ∧ (parse env w).exc = none := by
  unfold parse
  rw [if_pos h]
  exact ⟨rfl, rfl⟩

/-- Witness for C3 at a concrete frame with protocolMajor 2. -/
theorem parse_drops_unsupported_protocol_witness :
    (parse pEnvBenign
      { protocolMajor := 2, protocolMinor := 0, messageType := 0,
        payload := [1, 2, 3] }).events = [] :=
  (parse_drops_unsupported_protocol pEnvBenign
    { protocolMajor := 2, protocolMinor := 0, messageType := 0,
      payload := [1, 2, 3] } (by decide)).1

/-- C4: every wrapper frame whose messageType is the encrypted message
type is logged and dropped by parse, whatever its payload: no event is
emitted and no exception propagates. -/
theorem parse_drops_encrypted (env : ParserEnv) (w : UartWrapperPacket)
    (h : w.messageType = UartMessageType.ENCRYPTED_UART_MESSAGE) :
    (parse env w).events = [] ∧ (parse env w).exc = none ∧ (parse env w).logs ≠ [] := by
  unfold parse
  by_cases hp : w.protocolMajor ≠ PROTOCOL_MAJOR
  · rw [if_pos hp]
    exact ⟨rfl, rfl, List.cons_ne_nil _ _⟩
  · rw [if_neg hp, h]
    simp [UartMessageType.UART_MESSAGE, UartMessageType.ENCRYPTED_UART_MESSAGE]

/-- Witness for C4 at a concrete encrypted frame. -/
theorem parse_drops_encrypted_witness :
    (parse pEnvBenign
      { protocolMajor := 1, protocolMinor := 0, messageType := 1,
        payload := [9, 9, 9] }).events = [] :=
  (parse_drops_encrypted pEnvBenign
    { protocolMajor := 1, protocolMinor := 0, messageType := 1,
      payload := [9, 9, 9] } rfl).1

/-- C5: every message whose opcode is one of the four named error-reply
codes or lies in the guard range 9900 < opCode < 10000 is logged by the
opcode dispatch, raises no exception and emits zero events on the bus,
exactly like the unknown-opcode path, whose event list is also empty. -/
theorem dispatch_error_replies_silent (env : ParserEnv) (msg : UartMessagePacket)
    (h : msg.opCode = UartRxType.ERR_REPLY_PARSING_FAILED ∨
         msg.opCode = UartRxType.ERR_REPLY_STATUS ∨
         msg.opCode = UartRxType.ERR_REPLY_SESSION_NONCE_MISSING ∨
         msg.opCode = UartRxType.ERR_REPLY_DECRYPTION_FAILED ∨
         (9900 < msg.opCode ∧ msg.opCode < 10000)) :
    (handleUartMessage env msg).events = [] ∧
    (handleUartMessage env msg).exc = none ∧
    (handleUartMessage env msg).logs ≠ [] := by
  obtain ⟨op, pl⟩ := msg
  have hb : 9900 < op ∧ op < 10000 := by
    simp only [UartRxType.ERR_REPLY_PARSING_FAILED, UartRxType.ERR_REPLY_STATUS,
      UartRxType.ERR_REPLY_SESSION_NONCE_MISSING,
      UartRxType.ERR_REPLY_DECRYPTION_FAILED] at h
    rcases h with h | h | h | h | h <;> omega
  clear h
  obtain ⟨h1, h2⟩ := hb
  unfold handleUartMessage _handleUartMessage
  dsimp only
  rw [if_neg (by simp only [UartRxType.HELLO]; omega),
      if_neg (by simp only [UartRxType.SESSION_NONCE]; omega),
      if_neg (by simp only [UartRxType.HEARTBEAT]; omega),
      if_neg (by simp only [UartRxType.STATUS]; omega),
      if_neg (by simp only [UartRxType.RESULT_PACKET]; omega)]
  by_cases e1 : op = UartRxType.ERR_REPLY_PARSING_FAILED
  · rw [if_pos e1]
    exact ⟨rfl, rfl, List.cons_ne_nil _ _⟩
  rw [if_neg e1]
  by_cases e2 : op = UartRxType.ERR_REPLY_STATUS
  · rw [if_pos e2]
    exact ⟨rfl, rfl, List.cons_ne_nil _ _⟩
  rw [if_neg e2]
  by_cases e3 : op = UartRxType.ERR_REPLY_SESSION_NONCE_MISSING
  · rw [if_pos e3]
    exact ⟨rfl, rfl, List.cons_ne_nil _ _⟩
  rw [if_neg e3]
  by_cases e4 : op = UartRxType.ERR_REPLY_DECRYPTION_FAILED
  · rw [if_pos e4]
    exact ⟨rfl, rfl, List.cons_ne_nil _ _⟩
  rw [if_neg e4, if_pos (And.intro h1 h2)]
  exact ⟨rfl, rfl, List.cons_ne_nil _ _⟩

/-- Witness for C5 at the concrete error-reply opcode 9950. -/
theorem dispatch_error_replies_silent_witness :
    (handleUartMessage pEnvBenign { opCode := 9950, payload := [1] }).events = [] :=
  (dispatch_error_replies_silent pEnvBenign
    { opCode := 9950, payload := [1] } (by decide)).1

/-- C10: every MESH_RESULT message whose payload has length at most one
is dropped by the length guard before any payload access: the dispatch
emits nothing on any topic, logs nothing, and cannot fail. -/
theorem dispatch_short_mesh_result_silent (env : ParserEnv) (msg : UartMessagePacket)
    (hop : msg.opCode = UartRxType.MESH_RESULT)
    (hlen : msg.payload.length ≤ 1) :
    handleUartMessage env msg
      = { events := [], logs := [], prints := [], exc := none } := by
  obtain ⟨op, pl⟩ := msg
  simp only at hop hlen
  subst hop
  have hng : ¬ pl.length > 1 := by omega
  simp [handleUartMessage, _handleUartMessage, hng, parseErrorLog, squashCrownstone,
    UartRxType.HELLO, UartRxType.SESSION_NONCE, UartRxType.HEARTBEAT,
    UartRxType.STATUS, UartRxType.RESULT_PACKET,
    UartRxType.ERR_REPLY_PARSING_FAILED, UartRxType.ERR_REPLY_STATUS,
    UartRxType.ERR_REPLY_SESSION_NONCE_MISSING,
    UartRxType.ERR_REPLY_DECRYPTION_FAILED, UartRxType.UART_MESSAGE,
    UartRxType.SESSION_NONCE_MISSING, UartRxType.OWN_SERVICE_DATA,
    UartRxType.PRESENCE_CHANGE, UartRxType.FACTORY_RESET, UartRxType.BOOTED,
    UartRxType.HUB_DATA, UartRxType.MESH_SERVICE_DATA,
    UartRxType.EXTERNAL_STATE_PART_0, UartRxType.EXTERNAL_STATE_PART_1,
    UartRxType.MESH_RESULT]

/-- Witness for C10 at a concrete one-byte MESH_RESULT message. -/
theorem dispatch_short_mesh_result_silent_witness :
    handleUartMessage pEnvBenign
        { opCode := UartRxType.MESH_RESULT, payload := [5] }
      = { events := [], logs := [], prints := [], exc := none } :=
  dispatch_short_mesh_result_silent pEnvBenign
    { opCode := UartRxType.MESH_RESULT, payload := [5] } rfl (by decide)

/-- C9: a CROWNSTONE_ID message with payload [0x07] emits exactly the
decoded integer 7 on the own-id topic, and a MAC_ADDRESS message with an
all-zero (invalid) payload emits nothing on the own-mac topic and only
logs a warning. -/
theorem dispatch_own_id_and_invalid_mac (env : ParserEnv) (pl : List Nat)
    (h : pl.all (fun b => b == 0) = true) :
    (handleUartMessage env
        { opCode := UartRxType.CROWNSTONE_ID, payload := [7] }).events
      = [BusEvent.ownCrownstoneId 7] ∧
    (handleUartMessage env
        { opCode := UartRxType.MAC_ADDRESS, payload := pl }).events = [] ∧
    (handleUartMessage env
        { opCode := UartRxType.MAC_ADDRESS, payload := pl }).logs
      = ["WARN invalid address"] := by
  have haddr : uint8_array_to_address pl = "" := by
    unfold uint8_array_to_address
    rw [if_pos (Or.inr h)]
  refine ⟨rfl, ?_, ?_⟩ <;>
    simp [handleUartMessage, _handleUartMessage, haddr, parseErrorLog,
      squashCrownstone, emitB,
      UartRxType.HELLO, UartRxType.SESSION_NONCE, UartRxType.HEARTBEAT,
      UartRxType.STATUS, UartRxType.RESULT_PACKET,
      UartRxType.ERR_REPLY_PARSING_FAILED, UartRxType.ERR_REPLY_STATUS,
      UartRxType.ERR_REPLY_SESSION_NONCE_MISSING,
      UartRxType.ERR_REPLY_DECRYPTION_FAILED, UartRxType.UART_MESSAGE,
      UartRxType.SESSION_NONCE_MISSING, UartRxType.OWN_SERVICE_DATA,
      UartRxType.PRESENCE_CHANGE, UartRxType.FACTORY_RESET, UartRxType.BOOTED,
      UartRxType.HUB_DATA, UartRxType.MESH_SERVICE_DATA,
      UartRxType.EXTERNAL_STATE_PART_0, UartRxType.EXTERNAL_STATE_PART_1,
      UartRxType.MESH_RESULT, UartRxType.MESH_ACK_ALL_RESULT,
      UartRxType.RSSI_PING_MESSAGE, UartRxType.LOG, UartRxType.LOG_ARRAY,
      UartRxType.ASSET_MAC_RSSI_REPORT, UartRxType.ASSET_ID_RSSI_REPORT,
      UartRxType.INTERNAL_EVENT, UartRxType.MESH_CMD_TIME,
      UartRxType.MESH_PROFILE_LOCATION, UartRxType.MESH_SET_BEHAVIOUR_SETTINGS,
      UartRxType.MESH_TRACKED_DEVICE_REGISTER, UartRxType.MESH_TRACKED_DEVICE_TOKEN,
      UartRxType.MESH_SYNC_REQUEST, UartRxType.MESH_TRACKED_DEVICE_HEARTBEAT,
      UartRxType.ADVERTISING_ENABLED, UartRxType.MESH_ENABLED,
      UartRxType.CROWNSTONE_ID, UartRxType.MAC_ADDRESS]

/-- Witness for C9 at the all-zero six-byte MAC payload. -/
theorem dispatch_own_id_and_invalid_mac_witness :
    (handleUartMessage pEnvBenign
        { opCode := UartRxType.MAC_ADDRESS, payload := [0, 0, 0, 0, 0, 0] }).events
      = [] :=
  (dispatch_own_id_and_invalid_mac pEnvBenign [0, 0, 0, 0, 0, 0] rfl).2.1

/-- C2 counterexample: a subscriber of the hello topic that fails with
an exception that is not a CrownstoneException makes that exception
propagate out of handleUartMessage, the single dispatch call site, so
dispatch does not catch every exception raised while handling a
message. -/
theorem dispatch_catch_counterexample :
    (handleUartMessage pEnvOtherBoom
        { opCode := UartRxType.HELLO, payload := [1, 2] }).exc
      = some (Exc.other "boom") := by decide

/-- C2 (amended): only CrownstoneException is caught at the single
dispatch call site: no CrownstoneException, whether a decode failure of
the opcode switch or one raised by subscriber logic, ever propagates to
the caller of handleUartMessage, while exceptions of other types pass
through it unchanged. -/
theorem dispatch_catches_crownstone_exceptions (env : ParserEnv)
    (msg : UartMessagePacket) (s : String) :
    (handleUartMessage env msg).exc ≠ some (Exc.crownstone s) := by
  unfold handleUartMessage
  simp only
  generalize (_handleUartMessage env msg).exc = o
  cases o with
  | none => simp [squashCrownstone]
  | some e =>
    cases e with
    | crownstone t => simp [squashCrownstone]
    | other t => simp [squashCrownstone]

/-- Helper for C1: on every call whose path always requests a handshake
(entry without a target port, entry with a target port that is not among
the candidates, and the internal continuations those reach), a run that
ends with ready set has strictly increased the count of successful
handshakes, except for the degenerate continuation that finds the port
already set and returns its state unchanged. -/
theorem run_ready_handshake (env : Env) :
    ∀ fuel c s s', goodCall c s → run env fuel c s = some s' → s'.ready = true →
      s.successfulHandshakes < s'.successfulHandshakes
        ∨ (c = Call.initCheckPort ∧ s' = s) := by
  intro fuel
  induction fuel with
  | zero =>
    intro c s s' _ hrun _
    simp [run] at hrun
  | succ f ih =>
    intro c s s' hgood hrun hready
    cases c with
    | initMain targetPort b =>
      cases targetPort with
      | none =>
        simp only [run] at hrun
        rcases ih _ _ _ (by trivial) hrun hready with hlt | ⟨_, hss⟩
        · exact Or.inl (by simpa using hlt)
        · subst hss
          simp at hready
      | some p =>
        simp only [goodCall] at hgood
        simp only [run] at hrun
        simp only [hgood] at hrun
        rcases ih _ _ _ (by rfl) hrun hready with hlt | ⟨hc, _⟩
        · exact Or.inl (by simpa using hlt)
        · simp at hc
    | initCheckPort =>
      simp only [run] at hrun
      cases hsp : s.port with
      | some q =>
        rw [hsp] at hrun
        dsimp only at hrun
        injection hrun with h'
        exact Or.inr ⟨rfl, h'.symm⟩
      | none =>
        rw [hsp] at hrun
        dsimp only at hrun
        split at hrun
        · rcases ih _ _ _ (by trivial) hrun hready with hlt | ⟨hc, _⟩
          · exact Or.inl (by simpa using hlt)
          · simp at hc
        · rcases ih _ _ _ (by rfl) hrun hready with hlt | ⟨hc, _⟩
          · exact Or.inl hlt
          · simp at hc
    | reset =>
      simp only [run] at hrun
      rcases ih _ _ _ (by trivial) hrun hready with hlt | ⟨hc, _⟩
      · exact Or.inl (by simpa [resetState] using hlt)
      · simp at hc
    | attemptConnection idx hs =>
      simp only [goodCall] at hgood
      subst hgood
      simp only [run] at hrun
      cases hpt : s.availablePorts[idx]? with
      | none =>
        rw [hpt] at hrun
        exact Option.noConfusion hrun
      | some p =>
        rw [hpt] at hrun
        dsimp only at hrun
        rcases ih _ _ _ (by rfl) hrun hready with hlt | ⟨hc, _⟩
        · exact Or.inl hlt
        · simp at hc
    | setupConnection p hs =>
      simp only [goodCall] at hgood
      subst hgood
      simp only [run] at hrun
      cases hhs : env.handshake p with
      | true =>
        rw [hhs] at hrun
        simp only [if_true, ite_true] at hrun
        injection hrun with h'
        refine Or.inl ?_
        rw [← h']
        simp
      | false =>
        rw [hhs] at hrun
        simp only [reduceIte] at hrun
        rcases ih _ _ _ (by trivial) hrun hready with hlt | ⟨hc, _⟩
        · exact Or.inl (by simpa using hlt)
        · simp at hc

/-- C1 counterexample: when the caller supplies a target port that is
found among the enumerated candidates, the supervisor connects with the
handshake skipped, and ends ready without a single successful handshake
having completed on the transport, even against a device whose handshake
would fail. -/
theorem ready_without_handshake_counterexample :
    (run envOnePortNack 4 (Call.initMain (some "ttyACM0") 230400)
        (mkInitState envOnePortNack)).map
      (fun s => (s.ready, s.successfulHandshakes)) = some (true, 0) := by decide

/-- C1 (amended): ready is reached only through a successful handshake
on every entry into the supervisor except the one where a target port is
supplied and found among the enumerated candidates (there the handshake
is skipped by design): whenever a run entered without a target port, or
with a target port that is not among the candidates, terminates with
ready set, the count of successful handshake exchanges has strictly
increased. -/
theorem ready_requires_successful_handshake (env : Env) (fuel b : Nat)
    (targetPort : Option String) (s s' : MState)
    (hgood : goodCall (Call.initMain targetPort b) s)
    (hrun : run env fuel (Call.initMain targetPort b) s = some s')
    (hready : s'.ready = true) :
    s.successfulHandshakes < s'.successfulHandshakes := by
  rcases run_ready_handshake env fuel _ s s' hgood hrun hready with hlt | ⟨hc, _⟩
  · exact hlt
  · simp at hc

/-- Witness for the amended C1: a run without a target port over one
port whose handshake succeeds. -/
theorem ready_requires_successful_handshake_witness :
    (mkInitState envOnePortAck).successfulHandshakes
      < readyOnePortState.successfulHandshakes :=
  ready_requires_successful_handshake envOnePortAck 4 230400 none
    (mkInitState envOnePortAck) readyOnePortState trivial (by decide) rfl

/-- C6: starting from an enumerated candidate list of exactly three
ports with the attempt cursor at zero, if the handshake fails on
candidates 0 and 1 and succeeds on candidate 2, the supervisor
terminates ready, with the active port equal to the identifier of
candidate 2 and the attempt cursor equal to 2. -/
theorem third_candidate_connects (env : Env) (p0 p1 p2 : String)
    (henum : env.comports 0 = [p0, p1, p2])
    (h0 : env.handshake p0 = false) (h1 : env.handshake p1 = false)
    (h2 : env.handshake p2 = true) :
    (run env 12 (Call.initMain none 230400) (mkInitState env)).map
      (fun s => (s.ready, s.port, s.attemptingIndex)) = some (true, some p2, 2) := by
  simp [run, mkInitState, henum, h0, h1, h2]

/-- Witness for C6 over the concrete three-port environment. -/
theorem third_candidate_connects_witness :
    (run envThreePorts 12 (Call.initMain none 230400) (mkInitState envThreePorts)).map
      (fun s => (s.ready, s.port, s.attemptingIndex)) = some (true, some "p2", 2) :=
  third_candidate_connects envThreePorts "p0" "p1" "p2" rfl rfl rfl rfl

/-- C7: when the supervisor is entered without a target port while the
attempt cursor is at or beyond the end of the candidate list (including
the empty list), it does not fail: it records exactly one backoff sleep,
performs a full reset whose state has the cursor at zero, a freshly
enumerated candidate list, no transport and no active port, and recurses
into the entry point with ready still false. -/
theorem exhausted_candidates_reset (env : Env) (f b : Nat) (s : MState)
    (hport : s.port = none)
    (hidx : s.availablePorts.length ≤ s.attemptingIndex) :
    run env (f + 3) (Call.initMain none b) s
      = run env f (Call.initMain none 230400) (c7next env b s)
    ∧ (c7next env b s).attemptingIndex = 0
    ∧ (c7next env b s).availablePorts = env.comports s.enumCount
    ∧ (c7next env b s).port = none
    ∧ (c7next env b s).uartBridge = none
    ∧ (c7next env b s).ready = false
    ∧ (c7next env b s).sleeps = s.sleeps + 1 := by
  refine ⟨?_, rfl, rfl, rfl, rfl, rfl, rfl⟩
  simp [run, hport, hidx, c7next]

/-- Witness for C7 over the environment that enumerates no ports. -/
theorem exhausted_candidates_reset_witness :
    (c7next envNoPorts 230400 (mkInitState envNoPorts)).attemptingIndex = 0 :=
  (exhausted_candidates_reset envNoPorts 0 230400 (mkInitState envNoPorts)
    rfl (by decide)).2.1

/-- C8: the liveness-watch continuation observes the running flag: if
stop ran first (running false) it changes nothing and triggers no reset,
and if running is still true it triggers exactly one full reset, whose
state has the reset counter incremented once, the cursor at zero and a
freshly enumerated candidate list, before recursing into the entry
point. -/
theorem track_connection_respects_stop (env : Env) (fuel : Nat) (s : MState) :
    (s.running = false → trackConnection env fuel s = some s)
  ∧ (s.running = true →
      trackConnection env (fuel + 1) s
        = run env fuel (Call.initMain none 230400) (resetState env s)
      ∧ (resetState env s).resetCount = s.resetCount + 1
      ∧ (resetState env s).attemptingIndex = 0
      ∧ (resetState env s).availablePorts = env.comports s.enumCount) := by
  constructor
  · intro h
    simp [trackConnection, h]
  · intro h
    refine ⟨?_, rfl, rfl, rfl⟩
    simp [trackConnection, h, run]

/-- Witness for C8: a stopped supervisor is left untouched by the
continuation, and a running one increments the reset counter once. -/
theorem track_connection_respects_stop_witness :
    trackConnection envNoPorts 5 (stop (mkInitState envNoPorts))
        = some (stop (mkInitState envNoPorts))
  ∧ (resetState envNoPorts (mkInitState envNoPorts)).resetCount
        = (mkInitState envNoPorts).resetCount + 1 :=
  ⟨(track_connection_respects_stop envNoPorts 5 (stop (mkInitState envNoPorts))).1 rfl,
   ((track_connection_respects_stop envNoPorts 4 (mkInitState envNoPorts)).2 rfl).2.1⟩

end CrownstoneUart
